import Mathlib

/-!
Verification of the glc interception-and-pipeline engine against its
natural-language specification.  The definitions below are a shallow
embedding of `src/hook/alsa.c`, `src/stream/gl_play.c` and the
constants of `src/common/glc.h`.  Strings are modelled as `List Char`,
machine integers as `Nat`/`Int`, external collaborators (dlopen/dlsym,
elfhacks, the audio hook, X11/GLX) as explicit oracle parameters, and
side effects as event lists.
-/

/-- `EINVAL` as on Linux. -/
def EINVAL : Int := 22

/-- `EAGAIN` as on Linux. -/
def EAGAIN : Int := 11

/-- `GLC_CAPTURE` bit from glc.h. -/
def GLC_CAPTURE : Nat := 1

/-- `GLC_CTX_CREATE` bit from glc.h. -/
def GLC_CTX_CREATE : Nat := 1

/-- `GLC_CTX_UPDATE` bit from glc.h. -/
def GLC_CTX_UPDATE : Nat := 2

/-- `GLC_CTX_BGR` bit from glc.h. -/
def GLC_CTX_BGR : Nat := 4

/-- C bitmask test `flags & mask` (nonzero means set). -/
def hasFlag (flags mask : Nat) : Bool := flags &&& mask ≠ 0

/-! ## Capture descriptor parsing (`alsa_parse_capture_cfg`) -/

/-- One node of the `alsa_capture_stream_s` list.  `allocLen` records the
argument passed to `malloc` for the device string and `termIdx` the index
at which the NUL terminator is stored (`stream->device[len] = 0`). -/
structure CaptureStream where
  device : List Char
  rate : Nat
  channels : Nat
  allocLen : Nat
  termIdx : Nat
deriving DecidableEq, Repr

/-- Index of the first occurrence of `c`, as `strstr` with a one-character
needle: it searches the whole remaining string. -/
def findIdx (c : Char) : List Char → Option Nat
  | [] => none
  | x :: xs => if x = c then some 0 else (findIdx c xs).map (· + 1)

/-- Leading decimal digits of a string and the remainder. -/
def takeDigits : List Char → List Char × List Char
  | [] => ([], [])
  | x :: xs =>
    if x.isDigit then
      let (ds, rest) := takeDigits xs
      (x :: ds, rest)
    else ([], x :: xs)

/-- Value of a digit string (most significant first). -/
def digitsToNat (ds : List Char) : Nat :=
  ds.foldl (fun acc c => 10 * acc + (c.toNat - 48)) 0

/-- `sscanf(args, ",%u,%u", &rate, &channels)` for digit-only numerals
(the descriptor grammar uses none of the `%u` sign/whitespace extras):
each variable is overwritten only when its conversion succeeds. -/
def scanArgs (s : List Char) (rate channels : Nat) : Nat × Nat :=
  match s with
  | ',' :: rest =>
    let (ds, rest2) := takeDigits rest
    if ds = [] then (rate, channels)
    else
      let r := digitsToNat ds
      match rest2 with
      | ',' :: rest3 =>
        let (ds2, _) := takeDigits rest3
        if ds2 = [] then (r, channels) else (r, digitsToNat ds2)
      | _ => (r, channels)
  | _ => (rate, channels)

/-- Leading `;` delimiters skipped, as the inner `while (*device == ';')`. -/
def skipSemis : List Char → List Char
  | ';' :: rest => skipSemis rest
  | s => s

/-- The `(rate, channels)` pair for the spec starting at `d`: defaults
44100/1, overridden by `sscanf` from the first `,` found by `strstr` —
anywhere in the remaining input, even past the next `;`. -/
def specParams (d : List Char) : Nat × Nat :=
  match findIdx ',' d with
  | some i => scanArgs (d.drop i) 44100 1
  | none => (44100, 1)

/-- The `len` computation of `alsa_parse_capture_cfg`: up to the first
`,` if any, else up to the first `;` if any, else `strlen`. -/
def specLen (d : List Char) : Nat :=
  match findIdx ',' d, findIdx ';' d with
  | some i, _ => i
  | none, some j => j
  | none, none => d.length

/-- The `alsa_capture_stream_s` node built for the spec starting at `d`:
`malloc(len)` bytes for the device and the terminator stored at index
`len`. -/
def specNode (d : List Char) : CaptureStream :=
  ⟨d.take (specLen d), (specParams d).1, (specParams d).2, specLen d, specLen d⟩

/-- Body of the `while (device != NULL)` loop of `alsa_parse_capture_cfg`.
New nodes are prepended to `acc` exactly as the C code prepends to
`alsa.capture_stream`.  `fuel` bounds the iteration count; each round
consumes at least the `;` that `next` points at, so `cfg.length + 1`
fuel always suffices. -/
def parseLoop (fuel : Nat) (device : List Char) (acc : List CaptureStream) :
    List CaptureStream :=
  match fuel with
  | 0 => acc
  | fuel + 1 =>
    let d := skipSemis device
    if d = [] then acc
    else
      match findIdx ';' d with
      | some j => parseLoop fuel (d.drop j) (specNode d :: acc)
      | none => specNode d :: acc

/-- `alsa_parse_capture_cfg`: the resulting `alsa.capture_stream` list
(reverse of descriptor order, because nodes are prepended). -/
def alsa_parse_capture_cfg (cfg : List Char) : List CaptureStream :=
  parseLoop (cfg.length + 1) cfg []

/-! ## Intercepted ALSA entry points -/

/-- Observable actions of an intercepted write/mmap call: invoking the
real library function (with its return value) and emitting a capture
message via the audio hook. -/
inductive AlsaEvent where
  | realCall (ret : Int)
  | emit
deriving DecidableEq, Repr

/-- The parts of `alsa_private_s` and the session context that the
write/mmap wrappers consult: `alsa.capture` and `alsa.glc->flags`. -/
structure AlsaState where
  capture : Bool
  glcFlags : Nat
deriving DecidableEq, Repr

/-- `alsa.glc->flags & GLC_CAPTURE` nonzero. -/
def glcCapturing (s : AlsaState) : Bool := hasFlag s.glcFlags GLC_CAPTURE

/-- `__alsa_snd_pcm_writei`: call the real function, then emit one AUDIO
message when capture is on, the call wrote at least one frame, and the
session is capturing; return the real return value.  `realRet` stands for
the value the real `snd_pcm_writei` returns on this input. -/
def alsa_snd_pcm_writei (s : AlsaState) (realRet : Int) : Int × List AlsaEvent :=
  (realRet,
    AlsaEvent.realCall realRet ::
      (if s.capture ∧ 0 < realRet ∧ glcCapturing s then [AlsaEvent.emit] else []))

/-- `__alsa_snd_pcm_writen`: same shape as the interleaved variant. -/
def alsa_snd_pcm_writen (s : AlsaState) (realRet : Int) : Int × List AlsaEvent :=
  (realRet,
    AlsaEvent.realCall realRet ::
      (if s.capture ∧ 0 < realRet ∧ glcCapturing s then [AlsaEvent.emit] else []))

/-- `__alsa_snd_pcm_mmap_begin`: emits when the real call returned
success (`ret >= 0`). -/
def alsa_snd_pcm_mmap_begin (s : AlsaState) (realRet : Int) : Int × List AlsaEvent :=
  (realRet,
    AlsaEvent.realCall realRet ::
      (if s.capture ∧ 0 ≤ realRet ∧ glcCapturing s then [AlsaEvent.emit] else []))

/-- `__alsa_snd_pcm_mmap_commit`: the source emits BEFORE invoking the
real function and without looking at its result, then returns the real
return value. -/
def alsa_snd_pcm_mmap_commit (s : AlsaState) (realRet : Int) : Int × List AlsaEvent :=
  (realRet,
    (if s.capture ∧ glcCapturing s then [AlsaEvent.emit] else []) ++
      [AlsaEvent.realCall realRet])

/-- `emit` events occur only after a `realCall` event whose return value
signalled success (nonnegative). -/
def emitsAfterReal : List AlsaEvent → Bool → Bool
  | [], _ => true
  | AlsaEvent.realCall r :: rest, ok => emitsAfterReal rest (ok || decide (0 ≤ r))
  | AlsaEvent.emit :: rest, ok => ok && emitsAfterReal rest ok

/-! ## Real-symbol resolution and unhooking -/

/-- Results the dynamic loader would hand back for `libasound.so` and the
five symbols `get_real_alsa` resolves, `none` meaning lookup failure.
This stands for the external `lib.dlopen`/`lib.dlsym` collaborators. -/
structure AlsaLinkOracle where
  libasound : Option Nat
  snd_pcm_open : Option Nat
  snd_pcm_writei : Option Nat
  snd_pcm_writen : Option Nat
  snd_pcm_mmap_begin : Option Nat
  snd_pcm_mmap_commit : Option Nat
deriving DecidableEq, Repr

/-- The cached link state: the `alsa_loaded` flag and, when loaded, the
resolved handle and entry-point addresses. -/
structure AlsaHookState where
  alsa_loaded : Bool
  resolved : Option (Nat × Nat × Nat × Nat × Nat × Nat)
deriving DecidableEq, Repr

/-- Outcome of `get_real_alsa`: either the process aborts (`exit(1)`), or
the function returns with a new state after performing `lookups`
dlopen/dlsym calls. -/
inductive LinkResult where
  | aborted
  | ok (s : AlsaHookState) (lookups : Nat)
deriving DecidableEq, Repr

/-- `get_real_alsa`: returns immediately when `alsa_loaded` is set;
otherwise resolves the library handle and the five symbols in order,
aborting on the first failure, and caches the results. -/
def get_real_alsa (s : AlsaHookState) (o : AlsaLinkOracle) : LinkResult :=
  if s.alsa_loaded then .ok s 0
  else
    match o.libasound with
    | none => .aborted
    | some h =>
      match o.snd_pcm_open with
      | none => .aborted
      | some p1 =>
        match o.snd_pcm_writei with
        | none => .aborted
        | some p2 =>
          match o.snd_pcm_writen with
          | none => .aborted
          | some p3 =>
            match o.snd_pcm_mmap_begin with
            | none => .aborted
            | some p4 =>
              match o.snd_pcm_mmap_commit with
              | none => .aborted
              | some p5 => .ok ⟨true, some (h, p1, p2, p3, p4, p5)⟩ 6

/-- True when some required lookup of the oracle fails. -/
def resolveFails (o : AlsaLinkOracle) : Bool :=
  o.libasound.isNone || o.snd_pcm_open.isNone || o.snd_pcm_writei.isNone ||
    o.snd_pcm_writen.isNone || o.snd_pcm_mmap_begin.isNone ||
    o.snd_pcm_mmap_commit.isNone

/-- Outcome of `alsa_unhook_so`: process abort (via `get_real_alsa`), or
a return code together with the list of symbols rebound in the matched
object. -/
inductive UnhookResult where
  | aborted
  | ret (code : Int) (patched : List (List Char))
deriving DecidableEq, Repr

/-- The six relocation entries `alsa_unhook_so` rewrites. -/
def alsaUnhookSymbols : List (List Char) :=
  ["snd_pcm_writei".toList, "snd_pcm_writen".toList,
   "snd_pcm_mmap_begin".toList, "snd_pcm_mmap_commit".toList,
   "dlsym".toList, "dlvsym".toList]

/-- `alsa_unhook_so`: makes sure the real functions are resolved (which
may abort), then looks the object up with `eh_find_obj`; a nonzero
lookup code is returned unchanged with nothing patched, otherwise all
six symbols are rebound and 0 returned.  `findObjRet` stands for the
return value of the external `eh_find_obj` on the given pattern. -/
def alsa_unhook_so (s : AlsaHookState) (o : AlsaLinkOracle) (findObjRet : Int) :
    UnhookResult :=
  match get_real_alsa s o with
  | .aborted => .aborted
  | .ok _ _ =>
    if findObjRet ≠ 0 then .ret findObjRet []
    else .ret 0 alsaUnhookSymbols

/-! ## `alsa_start` -/

/-- The alsa module state that `alsa_start` reads and writes:
`alsa.started`, `alsa.capture`, `alsa.audio_hook` and the capture stream
list with its per-node running-instance handles. -/
structure AlsaModuleState where
  started : Bool
  capture : Bool
  audio_hook : Option Nat
  streams : List (CaptureStream × Option Nat)
deriving DecidableEq, Repr

/-- External calls `alsa_start` performs, in order. -/
inductive StartAction where
  | unhookSo (pattern : List Char)
  | audioHookInit
  | captureInit (device : List Char) (rate channels : Nat)
deriving DecidableEq, Repr

/-- `alsa_start`: an already-started module returns `EINVAL` at once with
no further actions and no state change; otherwise it unhooks
`*libasound.so*`, initializes the audio hook when capture is on (failing
with `EAGAIN` if that returns NULL), opens one capture instance per
configured stream, and sets `started`.  `audioHookRes` and `capRes`
stand for the results of the external `audio_hook_init` and
`audio_capture_init` collaborators. -/
def alsa_start (s : AlsaModuleState) (audioHookRes : Option Nat)
    (capRes : CaptureStream → Nat) :
    Int × AlsaModuleState × List StartAction :=
  if s.started then (EINVAL, s, [])
  else
    let acts0 := [StartAction.unhookSo "*libasound.so*".toList]
    let hookStep :
        Option (Option Nat × List StartAction) :=
      if s.capture then
        match audioHookRes with
        | none => none
        | some h => some (some h, [StartAction.audioHookInit])
      else some (s.audio_hook, [])
    match hookStep with
    | none => (EAGAIN, s, acts0 ++ [StartAction.audioHookInit])
    | some (hook, acts1) =>
      let streams' := s.streams.map (fun p => (p.1, some (capRes p.1)))
      let acts2 := s.streams.map
        (fun p => StartAction.captureInit p.1.device p.1.rate p.1.channels)
      (0, { s with started := true, audio_hook := hook, streams := streams' },
        acts0 ++ acts1 ++ acts2)

/-! ## Playback synchronization engine (`gl_play.c`) -/

/-- The fields of `gl_play_private_s` the read callback logic touches. -/
structure GlPlay where
  ctx_i : Int
  w : Nat
  h : Nat
  fps : Nat
  created : Bool
  glcFlags : Nat
deriving DecidableEq, Repr

/-- Messages dispatched by `gl_play_read_callback`; any other stream
message kind falls through untouched. -/
inductive GlMsg where
  | ctx (flags : Nat) (ctxId : Int) (w h : Nat)
  | picture (timestamp : Nat) (ctxId : Int)
  | otherKind
deriving DecidableEq, Repr

/-- Observable GL/X side effects of the playback worker. -/
inductive PlayEvent where
  | render
  | sleep (us : Nat)
  | swap
  | createSurface
  | updateSurface
  | adjustClock (us : Int)
deriving DecidableEq, Repr

/-- X events drained by `gl_handle_xevents` each iteration. -/
inductive XEv where
  | keyPress (code : Nat)
  | keyRelease (code : Nat)
  | destroyNotify
  | clientDelete
  | configureNotify (w h : Nat)
deriving DecidableEq, Repr

/-- X keysym `XK_Right`. -/
def XK_Right : Nat := 0xff53

/-- X keysym `XK_Escape`. -/
def XK_Escape : Nat := 0xff1b

/-- `GLC_CANCEL` bit from glc.h. -/
def GLC_CANCEL : Nat := 2

/-- Result of one `gl_play_read_callback` invocation: return code, new
engine state, the thread stop flag, and the side effects performed. -/
structure CallbackResult where
  ret : Int
  st : GlPlay
  stop : Bool
  events : List PlayEvent
deriving DecidableEq, Repr

/-- One case of the `switch (event.type)` in `gl_handle_xevents`:
Right-arrow press shifts the playback clock by
`util_timediff(glc, -100000)`, Escape release sets `GLC_CANCEL`,
destroy/WM-delete set the thread stop flag, configure resets the GL
viewport (no engine-state change). -/
def xevStep (g : GlPlay) (stop : Bool) : XEv → GlPlay × Bool × List PlayEvent
  | XEv.keyPress code =>
    if code = XK_Right then (g, stop, [PlayEvent.adjustClock (-100000)])
    else (g, stop, [])
  | XEv.keyRelease code =>
    if code = XK_Escape then
      ({ g with glcFlags := g.glcFlags ||| GLC_CANCEL }, stop, [])
    else (g, stop, [])
  | XEv.destroyNotify => (g, true, [])
  | XEv.clientDelete => (g, true, [])
  | XEv.configureNotify _ _ => (g, stop, [])

/-- `gl_handle_xevents`: drain all pending events in order. -/
def gl_handle_xevents (g : GlPlay) (stop : Bool) :
    List XEv → GlPlay × Bool × List PlayEvent
  | [] => (g, stop, [])
  | ev :: rest =>
    let s1 := xevStep g stop ev
    let s2 := gl_handle_xevents s1.1 s1.2.1 rest
    (s2.1, s2.2.1, s1.2.2 ++ s2.2.2)

/-- `gl_play_update_ctx`: `EINVAL` when the surface was never created;
otherwise remap/resize the window and reset the viewport (always 0). -/
def gl_play_update_ctx (g : GlPlay) : Int × GlPlay × List PlayEvent :=
  if ¬ g.created then (EINVAL, g, [])
  else (0, g, [PlayEvent.updateSurface])

/-- `gl_play_create_ctx`: create the window, then the GLX context —
`EAGAIN` when `glXCreateContext` returns NULL (`ctxCreateOk = false`)
with `created` left clear; on success set `created` and fall into
`gl_play_update_ctx`. -/
def gl_play_create_ctx (g : GlPlay) (ctxCreateOk : Bool) :
    Int × GlPlay × List PlayEvent :=
  if ctxCreateOk then
    let g1 := { g with created := true }
    let (code, g2, evs) := gl_play_update_ctx g1
    (code, g2, PlayEvent.createSurface :: evs)
  else (EAGAIN, g, [PlayEvent.createSurface])

/-- `gl_play_read_callback`.  `time` stands for `util_timestamp(glc)`,
the playback clock at this iteration; `ctxCreateOk` for the success of
the external `glXCreateContext`. -/
def gl_play_read_callback (g : GlPlay) (stop0 : Bool) (xevents : List XEv)
    (msg : GlMsg) (time : Nat) (ctxCreateOk : Bool) : CallbackResult :=
  let (g1, stop, evs0) := gl_handle_xevents g stop0 xevents
  if stop then ⟨0, g1, stop, evs0⟩
  else
    match msg with
    | GlMsg.ctx flags ctxId w h =>
      if ctxId ≠ g1.ctx_i then ⟨0, g1, stop, evs0⟩
      else
        let g2 := { g1 with w := w, h := h }
        if hasFlag flags GLC_CTX_BGR ∧ hasFlag flags GLC_CTX_CREATE then
          let (_, g3, evs) := gl_play_create_ctx g2 ctxCreateOk
          ⟨0, g3, stop, evs0 ++ evs⟩
        else if hasFlag flags GLC_CTX_BGR ∧ hasFlag flags GLC_CTX_UPDATE then
          let (code, g3, evs) := gl_play_update_ctx g2
          if code ≠ 0 then ⟨EINVAL, g3, stop, evs0 ++ evs⟩
          else ⟨0, g3, stop, evs0 ++ evs⟩
        else ⟨EINVAL, g2, stop, evs0⟩
    | GlMsg.picture ts ctxId =>
      if ctxId ≠ g1.ctx_i then ⟨0, g1, stop, evs0⟩
      else if ¬ g1.created then ⟨EINVAL, g1, stop, evs0⟩
      else
        let evs1 := evs0 ++ [PlayEvent.render]
        if ts > time then
          ⟨0, g1, stop, evs1 ++ [PlayEvent.sleep (ts - time), PlayEvent.swap]⟩
        else if time > ts + g1.fps then ⟨0, g1, stop, evs1⟩
        else ⟨0, g1, stop, evs1 ++ [PlayEvent.swap]⟩
    | GlMsg.otherKind => ⟨0, g1, stop, evs0⟩

/-! ## Claims about the capture descriptor parser -/

/-- Every node `alsa_parse_capture_cfg` ever produces stores its
terminator at index `allocLen`, one past the last valid index of the
`allocLen`-byte allocation. -/
theorem parseLoop_mem_term (fuel : Nat) (d : List Char)
    (acc : List CaptureStream) (n : CaptureStream)
    (h : n ∈ parseLoop fuel d acc) :
    n ∈ acc ∨ n.termIdx = n.allocLen := by
  induction fuel generalizing d acc with
  | zero =>
    unfold parseLoop at h
    exact Or.inl h
  | succ fuel ih =>
    simp only [parseLoop] at h
    split at h
    · exact Or.inl h
    · split at h
      · rcases ih _ _ h with hmem | hterm
        · rcases List.mem_cons.mp hmem with hn | hacc
          · exact Or.inr (by rw [hn]; rfl)
          · exact Or.inl hacc
        · exact Or.inr hterm
      · rcases List.mem_cons.mp h with hn | hacc
        · exact Or.inr (by rw [hn]; rfl)
        · exact Or.inl hacc

/-- C1: parsing `"hw:0;hw:1,48000,2"` does NOT produce a node
`{device := "hw:0", rate := 44100, channels := 1}` — `strstr` scans past
the `;` spec delimiter, so the first spec picks up the second spec's
`,48000,2` override and a 9-character device name `"hw:0;hw:1"`. -/
theorem C1_parse_failing_input :
    alsa_parse_capture_cfg "hw:0;hw:1,48000,2".toList =
      [⟨"hw:1".toList, 48000, 2, 4, 4⟩,
       ⟨"hw:0;hw:1".toList, 48000, 2, 9, 9⟩] := by decide

/-- C9: for every configuration and every resulting capture stream node,
the NUL terminator index equals the allocation length — the store
`stream->device[len] = 0` lands one byte past the end of the
`malloc(len)` allocation (valid indices are only those below
`allocLen`). -/
theorem C9_terminator_past_allocation (cfg : List Char) (n : CaptureStream)
    (h : n ∈ alsa_parse_capture_cfg cfg) :
    n.termIdx = n.allocLen ∧ ¬ n.termIdx < n.allocLen := by
  have := parseLoop_mem_term _ _ _ _ h
  rcases this with hmem | hterm
  · simp at hmem
  · exact ⟨hterm, by rw [hterm]; exact Nat.lt_irrefl _⟩

/-- Witness for C9 at the concrete descriptor `"hw:0"`. -/
theorem C9_terminator_past_allocation_witness :
    (⟨"hw:0".toList, 44100, 1, 4, 4⟩ : CaptureStream) ∈
      alsa_parse_capture_cfg "hw:0".toList ∧
    (4 : Nat) = 4 ∧ ¬ (4 : Nat) < 4 :=
  ⟨by decide,
   C9_terminator_past_allocation "hw:0".toList ⟨"hw:0".toList, 44100, 1, 4, 4⟩
     (by decide)⟩

/-! ## Claims about the intercepted write/mmap entry points -/

/-- C2: the claim as stated is false — `__alsa_snd_pcm_mmap_commit`
emits its capture message BEFORE invoking the real function: with
capture on, the session capturing, and a real return value of `-1`
(failure), the emission still happens and precedes the real call. -/
theorem C2_counterexample :
    (alsa_snd_pcm_mmap_commit ⟨true, 1⟩ (-1)).2 =
      [AlsaEvent.emit, AlsaEvent.realCall (-1)] ∧
    emitsAfterReal (alsa_snd_pcm_mmap_commit ⟨true, 1⟩ (-1)).2 false = false := by
  decide

/-- C2 (amended): every wrapper returns exactly the real return value
and emits only when capture is on and the session is capturing; for
`writei`/`writen`/`mmap_begin` the emission comes after a successful
real call, while for `mmap_commit` the emission comes first, before the
real call and independent of its result. -/
theorem C2_amended (s : AlsaState) (r : Int) :
    (alsa_snd_pcm_writei s r).1 = r ∧
    (alsa_snd_pcm_writen s r).1 = r ∧
    (alsa_snd_pcm_mmap_begin s r).1 = r ∧
    (alsa_snd_pcm_mmap_commit s r).1 = r ∧
    emitsAfterReal (alsa_snd_pcm_writei s r).2 false = true ∧
    emitsAfterReal (alsa_snd_pcm_writen s r).2 false = true ∧
    emitsAfterReal (alsa_snd_pcm_mmap_begin s r).2 false = true ∧
    (AlsaEvent.emit ∈ (alsa_snd_pcm_writei s r).2 →
      s.capture = true ∧ glcCapturing s = true) ∧
    (AlsaEvent.emit ∈ (alsa_snd_pcm_writen s r).2 →
      s.capture = true ∧ glcCapturing s = true) ∧
    (AlsaEvent.emit ∈ (alsa_snd_pcm_mmap_begin s r).2 →
      s.capture = true ∧ glcCapturing s = true) ∧
    (AlsaEvent.emit ∈ (alsa_snd_pcm_mmap_commit s r).2 →
      s.capture = true ∧ glcCapturing s = true) ∧
    (alsa_snd_pcm_mmap_commit s r).2 =
      (if s.capture = true ∧ glcCapturing s = true then
        [AlsaEvent.emit, AlsaEvent.realCall r] else [AlsaEvent.realCall r]) := by
  unfold alsa_snd_pcm_writei alsa_snd_pcm_writen alsa_snd_pcm_mmap_begin
    alsa_snd_pcm_mmap_commit
  refine ⟨rfl, rfl, rfl, rfl, ?_, ?_, ?_, ?_, ?_, ?_, ?_, ?_⟩ <;>
    simp only [emitsAfterReal] <;> split_ifs with hc <;>
      simp_all [emitsAfterReal]
  · omega
  · omega

/-- Witness for C2 (amended) at capture on, flags = `GLC_CAPTURE`,
real return 5. -/
theorem C2_amended_witness :
    (alsa_snd_pcm_writei ⟨true, 1⟩ 5).1 = 5 ∧
    AlsaEvent.emit ∈ (alsa_snd_pcm_writei ⟨true, 1⟩ 5).2 ∧
    ((⟨true, 1⟩ : AlsaState).capture = true ∧
      glcCapturing ⟨true, 1⟩ = true) := by
  have h := C2_amended ⟨true, 1⟩ 5
  exact ⟨h.1, by decide, h.2.2.2.2.2.2.2.1 (by decide)⟩

/-! ## Claims about the playback read callback -/

/-- C3: on a PICTURE message for the owned, created context the frame is
rendered first; when the timestamp is ahead of the playback clock the
worker sleeps for exactly the difference and then swaps; when the clock
has overrun the timestamp by more than one target-frame interval the
swap is skipped; otherwise it swaps — always returning 0 with the
engine state untouched. -/
theorem C3_picture_pacing (g : GlPlay) (ts time : Nat) (ok : Bool)
    (hc : g.created = true) :
    gl_play_read_callback g false [] (GlMsg.picture ts g.ctx_i) time ok =
      ⟨0, g, false,
        if time < ts then
          [PlayEvent.render, PlayEvent.sleep (ts - time), PlayEvent.swap]
        else if ts + g.fps < time then [PlayEvent.render]
        else [PlayEvent.render, PlayEvent.swap]⟩ := by
  unfold gl_play_read_callback gl_handle_xevents
  simp [hc]
  split_ifs <;> rfl

/-- Witness for C3 at a context whose timestamp is 10 against clock 3:
the worker renders, sleeps 7 microseconds, then swaps. -/
theorem C3_picture_pacing_witness :
    (⟨1, 0, 0, 0, true, 0⟩ : GlPlay).created = true ∧
    gl_play_read_callback ⟨1, 0, 0, 0, true, 0⟩ false []
        (GlMsg.picture 10 1) 3 true =
      ⟨0, ⟨1, 0, 0, 0, true, 0⟩, false,
        [PlayEvent.render, PlayEvent.sleep 7, PlayEvent.swap]⟩ := by
  refine ⟨rfl, ?_⟩
  have h := C3_picture_pacing ⟨1, 0, 0, 0, true, 0⟩ 10 3 true rfl
  simpa using h

/-- C4: the claim as stated is false — a PICTURE message for the OWNED
context that is not yet created is not ignored with a zero return: the
source prints a diagnostic and returns `EINVAL` (a fatal stage error). -/
theorem C4_counterexample :
    (gl_play_read_callback ⟨1, 0, 0, 0, false, 0⟩ false []
        (GlMsg.picture 5 1) 0 true).ret = EINVAL ∧ EINVAL ≠ 0 := by
  decide

/-- C4 (amended): a PICTURE message for a context other than the owned
one is ignored — return 0, no render, no state change; a PICTURE for the
owned context before any CREATE instead returns the fatal-stage code
`EINVAL`, also with no render and no state change. -/
theorem C4_amended (g : GlPlay) (ts : Nat) (ctxId : Int) (time : Nat)
    (ok : Bool) :
    (ctxId ≠ g.ctx_i →
      gl_play_read_callback g false [] (GlMsg.picture ts ctxId) time ok =
        ⟨0, g, false, []⟩) ∧
    (ctxId = g.ctx_i → g.created = false →
      gl_play_read_callback g false [] (GlMsg.picture ts ctxId) time ok =
        ⟨EINVAL, g, false, []⟩) := by
  constructor
  · intro hne
    unfold gl_play_read_callback gl_handle_xevents
    simp [hne]
  · intro heq hcr
    unfold gl_play_read_callback gl_handle_xevents
    simp [heq, hcr]

/-- Witness for C4 (amended): a foreign-context PICTURE is ignored and
an owned-but-uncreated-context PICTURE fails with `EINVAL`. -/
theorem C4_amended_witness :
    ((2 : Int) ≠ (⟨1, 0, 0, 0, false, 0⟩ : GlPlay).ctx_i ∧
      gl_play_read_callback ⟨1, 0, 0, 0, false, 0⟩ false []
          (GlMsg.picture 5 2) 0 true =
        ⟨0, ⟨1, 0, 0, 0, false, 0⟩, false, []⟩) ∧
    ((1 : Int) = (⟨1, 0, 0, 0, false, 0⟩ : GlPlay).ctx_i ∧
      (⟨1, 0, 0, 0, false, 0⟩ : GlPlay).created = false ∧
      gl_play_read_callback ⟨1, 0, 0, 0, false, 0⟩ false []
          (GlMsg.picture 5 1) 0 true =
        ⟨EINVAL, ⟨1, 0, 0, 0, false, 0⟩, false, []⟩) :=
  ⟨⟨by decide, (C4_amended ⟨1, 0, 0, 0, false, 0⟩ 5 2 0 true).1 (by decide)⟩,
   ⟨rfl, rfl, (C4_amended ⟨1, 0, 0, 0, false, 0⟩ 5 1 0 true).2 rfl rfl⟩⟩

/-- C5: a CTX message with lifecycle UPDATE (CREATE not set) for the
owned context before any CREATE yields the nonzero fatal-stage code
`EINVAL` and performs no render (no side effect at all beyond the `w`/`h`
field assignments the source does before validating). -/
theorem C5_update_before_create (g : GlPlay) (flags w h time : Nat)
    (ok : Bool) (hu : hasFlag flags GLC_CTX_UPDATE = true)
    (hc : hasFlag flags GLC_CTX_CREATE = false)
    (hcr : g.created = false) :
    gl_play_read_callback g false [] (GlMsg.ctx flags g.ctx_i w h) time ok =
      ⟨EINVAL, { g with w := w, h := h }, false, []⟩ ∧
    EINVAL ≠ 0 := by
  refine ⟨?_, by decide⟩
  unfold gl_play_read_callback gl_handle_xevents gl_play_update_ctx
  simp [hc, hcr, EINVAL]

/-- Witness for C5 with flags `GLC_CTX_UPDATE | GLC_CTX_BGR` (= 6). -/
theorem C5_update_before_create_witness :
    hasFlag 6 GLC_CTX_UPDATE = true ∧ hasFlag 6 GLC_CTX_CREATE = false ∧
    (⟨1, 0, 0, 0, false, 0⟩ : GlPlay).created = false ∧
    gl_play_read_callback ⟨1, 0, 0, 0, false, 0⟩ false []
        (GlMsg.ctx 6 1 640 480) 0 true =
      ⟨EINVAL, ⟨1, 640, 480, 0, false, 0⟩, false, []⟩ :=
  ⟨by decide, by decide, rfl,
   ((C5_update_before_create ⟨1, 0, 0, 0, false, 0⟩ 6 640 480 0 true
      (by decide) (by decide) rfl).1)⟩

/-- C10: when surface/context creation fails (the external
`glXCreateContext` returns NULL, so `gl_play_create_ctx` reports
`EAGAIN`), the read callback on a CTX CREATE message for the owned
context still returns 0 and the failure is discarded: `created` stays
clear and no error is propagated. -/
theorem C10_create_failure_discarded (g : GlPlay) (flags w h time : Nat)
    (hb : hasFlag flags GLC_CTX_BGR = true)
    (hc : hasFlag flags GLC_CTX_CREATE = true) :
    gl_play_create_ctx { g with w := w, h := h } false =
      (EAGAIN, { g with w := w, h := h }, [PlayEvent.createSurface]) ∧
    gl_play_read_callback g false [] (GlMsg.ctx flags g.ctx_i w h) time false =
      ⟨0, { g with w := w, h := h }, false, [PlayEvent.createSurface]⟩ := by
  constructor
  · unfold gl_play_create_ctx
    simp
  · unfold gl_play_read_callback gl_handle_xevents gl_play_create_ctx
    simp [hb, hc]

/-- Witness for C10 with flags `GLC_CTX_CREATE | GLC_CTX_BGR` (= 5). -/
theorem C10_create_failure_discarded_witness :
    hasFlag 5 GLC_CTX_BGR = true ∧ hasFlag 5 GLC_CTX_CREATE = true ∧
    gl_play_read_callback ⟨1, 0, 0, 0, false, 0⟩ false []
        (GlMsg.ctx 5 1 640 480) 0 false =
      ⟨0, ⟨1, 640, 480, 0, false, 0⟩, false, [PlayEvent.createSurface]⟩ :=
  ⟨by decide, by decide,
   (C10_create_failure_discarded ⟨1, 0, 0, 0, false, 0⟩ 5 640 480 0
      (by decide) (by decide)).2⟩

/-! ## Claims about start, resolution and unhooking -/

/-- C6: `alsa_start` on an already-started module returns `EINVAL` with
the state untouched and no external actions performed — no re-patching,
no audio-hook init, no capture stream opened. -/
theorem C6_start_idempotency_guard (s : AlsaModuleState)
    (audioHookRes : Option Nat) (capRes : CaptureStream → Nat)
    (h : s.started = true) :
    alsa_start s audioHookRes capRes = (EINVAL, s, []) := by
  unfold alsa_start
  simp [h]

/-- Witness for C6 on a started module with one configured stream. -/
theorem C6_start_idempotency_guard_witness :
    (⟨true, true, none, [(⟨"hw:0".toList, 44100, 1, 4, 4⟩, none)]⟩ :
      AlsaModuleState).started = true ∧
    alsa_start ⟨true, true, none, [(⟨"hw:0".toList, 44100, 1, 4, 4⟩, none)]⟩
        (some 3) (fun _ => 7) =
      (EINVAL, ⟨true, true, none, [(⟨"hw:0".toList, 44100, 1, 4, 4⟩, none)]⟩,
        []) :=
  ⟨rfl,
   C6_start_idempotency_guard
     ⟨true, true, none, [(⟨"hw:0".toList, 44100, 1, 4, 4⟩, none)]⟩
     (some 3) (fun _ => 7) rfl⟩

/-- A loaded state makes `get_real_alsa` return at once: zero lookups,
state untouched, for any oracle. -/
theorem get_real_alsa_of_loaded (s : AlsaHookState) (o : AlsaLinkOracle)
    (h : s.alsa_loaded = true) : get_real_alsa s o = LinkResult.ok s 0 := by
  unfold get_real_alsa
  simp [h]

/-- Any non-aborting run of `get_real_alsa` ends with `alsa_loaded`
set. -/
theorem get_real_alsa_ok_loaded (s s2 : AlsaHookState) (o : AlsaLinkOracle)
    (n : Nat) (h : get_real_alsa s o = LinkResult.ok s2 n) :
    s2.alsa_loaded = true := by
  obtain ⟨l, res⟩ := s
  obtain ⟨a, b, c, d, e, f⟩ := o
  cases l
  · cases a <;> cases b <;> cases c <;> cases d <;> cases e <;> cases f <;>
      simp_all [get_real_alsa] <;> simp [← h.1]
  · simp [get_real_alsa] at h
    simp [← h.1]

/-- C7: once `alsa_loaded` is set, `get_real_alsa` performs zero further
lookups and leaves the state alone; when not loaded and any lookup
fails, the process aborts instead of returning; and any non-aborting
run leaves `alsa_loaded` set, so a subsequent call — with any oracle —
performs zero lookups.  Hence the library and its symbols are looked up
at most once per process. -/
theorem C7_resolve_once_or_abort (s : AlsaHookState) (o o2 : AlsaLinkOracle) :
    (s.alsa_loaded = true → get_real_alsa s o = LinkResult.ok s 0) ∧
    (s.alsa_loaded = false → resolveFails o = true →
      get_real_alsa s o = LinkResult.aborted) ∧
    (∀ s2 n, get_real_alsa s o = LinkResult.ok s2 n →
      s2.alsa_loaded = true ∧ get_real_alsa s2 o2 = LinkResult.ok s2 0) := by
  refine ⟨get_real_alsa_of_loaded s o, ?_, ?_⟩
  · obtain ⟨l, res⟩ := s
    obtain ⟨a, b, c, d, e, f⟩ := o
    intro hl hf
    subst hl
    cases a <;> cases b <;> cases c <;> cases d <;> cases e <;> cases f <;>
      simp_all [get_real_alsa, resolveFails]
  · intro s2 n h
    have h2 := get_real_alsa_ok_loaded s s2 o n h
    exact ⟨h2, get_real_alsa_of_loaded s2 o2 h2⟩

/-- Witness for C7: a loaded state resolves nothing; an unloaded state
with a failing loader aborts. -/
theorem C7_resolve_once_or_abort_witness :
    get_real_alsa ⟨true, none⟩ ⟨none, none, none, none, none, none⟩ =
      LinkResult.ok ⟨true, none⟩ 0 ∧
    get_real_alsa ⟨false, none⟩ ⟨none, none, none, none, none, none⟩ =
      LinkResult.aborted :=
  ⟨(C7_resolve_once_or_abort ⟨true, none⟩ ⟨none, none, none, none, none, none⟩
      ⟨none, none, none, none, none, none⟩).1 rfl,
   (C7_resolve_once_or_abort ⟨false, none⟩ ⟨none, none, none, none, none, none⟩
      ⟨none, none, none, none, none, none⟩).2.1 rfl rfl⟩

/-- C8: the claim as stated is false — `alsa_unhook_so` called before
the real entry points are resolved first runs `get_real_alsa`, and when
the real library cannot be resolved that aborts the process. -/
theorem C8_counterexample :
    alsa_unhook_so ⟨false, none⟩ ⟨none, none, none, none, none, none⟩ 0 =
      UnhookResult.aborted := by decide

/-- C8 (amended): provided the real entry points are already resolved
(or resolve successfully), `alsa_unhook_so` never aborts: when no loaded
object matches it returns the nonzero `eh_find_obj` code with nothing
patched, and when one matches it rebinds the six intercepted symbols and
returns zero. -/
theorem C8_amended (s : AlsaHookState) (o : AlsaLinkOracle) (r : Int)
    (h : s.alsa_loaded = true ∨ resolveFails o = false) :
    alsa_unhook_so s o r ≠ UnhookResult.aborted ∧
    (r ≠ 0 → alsa_unhook_so s o r = UnhookResult.ret r []) ∧
    (r = 0 → alsa_unhook_so s o r = UnhookResult.ret 0 alsaUnhookSymbols) := by
  have hnab : get_real_alsa s o ≠ LinkResult.aborted := by
    rcases h with hl | hf
    · rw [get_real_alsa_of_loaded s o hl]
      simp
    · obtain ⟨l, res⟩ := s
      obtain ⟨a, b, c, d, e, f⟩ := o
      cases l
      · cases a <;> cases b <;> cases c <;> cases d <;> cases e <;> cases f <;>
          simp_all [get_real_alsa, resolveFails]
      · simp [get_real_alsa]
  rcases hres : get_real_alsa s o with _ | ⟨s2, n⟩
  · exact absurd hres hnab
  · unfold alsa_unhook_so
    rw [hres]
    by_cases hr : r = 0
    · subst hr
      simp
    · simp [hr]

/-- Witness for C8 (amended) on a resolved state and a failed object
lookup returning code 3. -/
theorem C8_amended_witness :
    ((⟨true, none⟩ : AlsaHookState).alsa_loaded = true ∨
      resolveFails ⟨none, none, none, none, none, none⟩ = false) ∧
    (3 : Int) ≠ 0 ∧
    alsa_unhook_so ⟨true, none⟩ ⟨none, none, none, none, none, none⟩ 3 =
      UnhookResult.ret 3 [] :=
  ⟨Or.inl rfl, by decide,
   (C8_amended ⟨true, none⟩ ⟨none, none, none, none, none, none⟩ 3
      (Or.inl rfl)).2.1 (by decide)⟩
